import Mathlib

/-!
Shallow embedding of the mayaunittest repository: the command-line driver
`src/bin/run_maya_tests.py` and the in-Maya test library
`src/python/mayaunittest.py`.  External collaborators (the filesystem, the
standard unit-test framework, the Maya command namespace, the environment)
are modelled as explicit oracle parameters, so every definition is
executable and can be evaluated at concrete inputs.
-/

/-! ## Install Resolver (src/bin/run_maya_tests.py) -/

/-- Embedding of the module constant DEFAULT_MAYA_VERSION. -/
def DEFAULT_MAYA_VERSION : Int := 2022

/-- Embedding of default_maya_location (src/bin/run_maya_tests.py lines 84-92):
three platform branches keyed by the normalized platform name; on the
linux branch, versions below 2016 get an architecture suffix appended. -/
def default_maya_location (osKey : String) (mayaVersion : Int) : String :=
  if osKey = "windows" then
    "C:/Program Files/Autodesk/Maya" ++ toString mayaVersion
  else if osKey = "darwin" then
    "/Applications/Autodesk/maya" ++ toString mayaVersion ++ "/Maya.app/Contents"
  else
    let location := "/usr/autodesk/maya" ++ toString mayaVersion
    if mayaVersion < 2016 then location ++ "-x64" else location

/-- Parsed shape of maya_installs.json: a JSON object mapping normalized
platform name to an object mapping stringified version to install path. -/
abbrev InstallMap := List (String × List (String × String))

/-- Embedding of load_maya_install_map (lines 69-81): a missing file (here
`none`) is tolerated and treated as the empty mapping; an existing file
yields its parsed contents. -/
def load_maya_install_map (fileInstalls : Option InstallMap) : InstallMap :=
  match fileInstalls with
  | none => []
  | some installs => installs

/-- Embedding of the lookup-table step of resolve_maya_location (lines
108-116).  In the source, ver_key is str(maya_version) when maya_version is
truthy, and otherwise the integer DEFAULT_MAYA_VERSION, which can never
match the string keys of a parsed JSON object; hence a falsy (zero) version
never produces a table hit.  A hit is returned only when non-empty
(the source's truthiness test on loc). -/
def maya_install_lookup (mayaVersion : Int) (installs : InstallMap) (osKey : String) :
    Option String :=
  if mayaVersion ≠ 0 then
    match installs.lookup osKey with
    | some osMap =>
      match osMap.lookup (toString mayaVersion) with
      | some loc => if loc ≠ "" then some loc else none
      | none => none
    | none => none
  else none

/-- Embedding of resolve_maya_location (lines 95-124).  The environment
variable MAYA_LOCATION is passed as an oracle (`none` when unset).  The
source tests each candidate for truthiness (non-emptiness) before
returning it, except the synthesized default which is returned as-is. -/
def resolve_maya_location (mayaVersion : Int) (mayaPath : String)
    (fileInstalls : Option InstallMap) (osKey : String) (envLoc : Option String) : String :=
  if mayaPath ≠ "" then mayaPath
  else
    match maya_install_lookup mayaVersion (load_maya_install_map fileInstalls) osKey with
    | some loc => loc
    | none =>
      match envLoc with
      | some env => if env ≠ "" then env else default_maya_location osKey mayaVersion
      | none => default_maya_location osKey mayaVersion

example : resolve_maya_location 2024 "/x" (some [("linux", [("2024", "/y")])]) "linux"
    (some "/z") = "/x" := by decide
example : resolve_maya_location 2024 "" (some [("linux", [("2024", "/y")])]) "linux"
    (some "/z") = "/y" := by decide
example : resolve_maya_location 2024 "" (some [("linux", [])]) "linux"
    (some "/z") = "/z" := by decide
example : resolve_maya_location 2015 "" none "linux" none = "/usr/autodesk/maya2015-x64" := by
  decide

/-- C4 counterexample: the claim says the value of the install-location
environment variable is returned whenever it is present, but with the
variable present and equal to the empty string (and no explicit path and no
table hit) the code falls through to the synthesized default instead of
returning the empty value. -/
theorem C4_counterexample :
    resolve_maya_location 2024 "" none "linux" (some "") = "/usr/autodesk/maya2024" ∧
    ("" : String) ≠ "/usr/autodesk/maya2024" := by
  constructor
  · decide
  · decide

/-- C4 (amended): resolve_maya_location follows the strict priority order:
a non-empty explicit path is returned verbatim; otherwise, for a nonzero
version, a non-empty lookup-table entry for the current platform and
stringified version is returned; otherwise a present AND non-empty
install-location environment value is returned; otherwise the synthesized
platform default is returned. -/
theorem C4_resolve_priority (mayaVersion : Int) (mayaPath : String)
    (fileInstalls : Option InstallMap) (osKey : String) (envLoc : Option String) :
    (mayaPath ≠ "" →
      resolve_maya_location mayaVersion mayaPath fileInstalls osKey envLoc = mayaPath) ∧
    (∀ osMap loc, mayaPath = "" → mayaVersion ≠ 0 →
      (load_maya_install_map fileInstalls).lookup osKey = some osMap →
      osMap.lookup (toString mayaVersion) = some loc → loc ≠ "" →
      resolve_maya_location mayaVersion mayaPath fileInstalls osKey envLoc = loc) ∧
    (∀ env, mayaPath = "" →
      maya_install_lookup mayaVersion (load_maya_install_map fileInstalls) osKey = none →
      envLoc = some env → env ≠ "" →
      resolve_maya_location mayaVersion mayaPath fileInstalls osKey envLoc = env) ∧
    (mayaPath = "" →
      maya_install_lookup mayaVersion (load_maya_install_map fileInstalls) osKey = none →
      (envLoc = none ∨ envLoc = some "") →
      resolve_maya_location mayaVersion mayaPath fileInstalls osKey envLoc =
        default_maya_location osKey mayaVersion) := by
  refine ⟨?_, ?_, ?_, ?_⟩
  · intro hp
    simp [resolve_maya_location, hp]
  · intro osMap loc hp hv hos hloc hne
    have hlk : maya_install_lookup mayaVersion (load_maya_install_map fileInstalls) osKey =
        some loc := by
      simp [maya_install_lookup, hv, hos, hloc, hne]
    subst hp
    simp [resolve_maya_location, hlk]
  · intro env hp hlk henv hne
    subst hp
    subst henv
    simp [resolve_maya_location, hlk, hne]
  · intro hp hlk henv
    subst hp
    rcases henv with h | h <;> subst h <;> simp [resolve_maya_location, hlk]

/-- C4 witness: the priority chain at the spec's own example inputs. -/
theorem C4_resolve_priority_witness :
    resolve_maya_location 2024 "/x" (some [("linux", [("2024", "/y")])]) "linux"
      (some "/z") = "/x" ∧
    resolve_maya_location 2024 "" (some [("linux", [("2024", "/y")])]) "linux"
      (some "/z") = "/y" ∧
    resolve_maya_location 2024 "" (some [("linux", [])]) "linux" (some "/z") = "/z" ∧
    resolve_maya_location 2024 "" none "linux" none = "/usr/autodesk/maya2024" := by
  refine ⟨?_, ?_, ?_, ?_⟩
  · exact (C4_resolve_priority 2024 "/x" (some [("linux", [("2024", "/y")])]) "linux"
      (some "/z")).1 (by decide)
  · exact (C4_resolve_priority 2024 "" (some [("linux", [("2024", "/y")])]) "linux"
      (some "/z")).2.1 [("2024", "/y")] "/y" rfl (by decide) (by decide) (by decide) (by decide)
  · exact (C4_resolve_priority 2024 "" (some [("linux", [])]) "linux"
      (some "/z")).2.2.1 "/z" rfl (by decide) rfl (by decide)
  · exact (C4_resolve_priority 2024 "" none "linux" none).2.2.2 rfl (by decide) (Or.inl rfl)

/-! ## Path helpers (os.path, modelled for slash-separated paths) -/

/-- Index of the last occurrence of a character in a list, if any. -/
def lastIndexOf (l : List Char) (c : Char) : Option Nat :=
  (List.range l.length).foldl
    (fun acc i => if l.get? i = some c then some i else acc) none

/-- Model of os.path.dirname for slash-separated paths. -/
def dirname (p : String) : String :=
  match lastIndexOf p.toList '/' with
  | some i => String.mk (p.toList.take i)
  | none => ""

/-- Model of os.path.basename for slash-separated paths. -/
def basename (p : String) : String :=
  match lastIndexOf p.toList '/' with
  | some i => String.mk (p.toList.drop (i + 1))
  | none => p

/-- Model of os.path.join for two components (the second relative unless it
starts with a separator). -/
def joinPath (a b : String) : String :=
  if b.toList.head? = some '/' then b
  else if a = "" then b
  else if a.toList.getLast? = some '/' then a ++ b
  else a ++ "/" ++ b

example : dirname "/tmp/x" = "/tmp" := by decide
example : basename "/tmp/x" = "x" := by decide
example : joinPath "/tmp" "a.txt" = "/tmp/a.txt" := by decide

/-! ## Isolation Directory Manager (src/bin/run_maya_tests.py) -/

/-- Outcome of one shutil.rmtree call, as seen by the caller: success, a
PermissionError, or some other exception.  Errors carry an identifier so
that the theorems can tell which error object is re-raised. -/
inductive RmAttempt where
  | ok
  | perm (errId : Nat)
  | other (errId : Nat)
deriving DecidableEq, Repr

/-- Result of one pass of the retry loop of _rmtree_with_retries. -/
inductive RmLoopRes where
  /-- rmtree succeeded at some attempt: attempts used and sleeps performed. -/
  | success (attemptsUsed : Nat) (sleeps : Nat)
  /-- a non-PermissionError escaped the loop (it is not caught). -/
  | rethrow (attemptsUsed : Nat) (sleeps : Nat) (errId : Nat)
  /-- every attempt failed with PermissionError; the last error id is kept. -/
  | exhausted (sleeps : Nat) (lastErr : Option Nat)
deriving DecidableEq, Repr

/-- Retry loop of _rmtree_with_retries (lines 198-204): `attempt` is the
index of the next rmtree call, `remaining` the remaining iterations,
`sleeps` the sleeps performed so far, `lastErr` the last PermissionError.
Each PermissionError is recorded and followed by one sleep. -/
def rmtree_loop (outcomes : Nat → RmAttempt) :
    Nat → Nat → Nat → Option Nat → RmLoopRes
  | _, 0, sleeps, lastErr => .exhausted sleeps lastErr
  | attempt, remaining + 1, sleeps, _lastErr =>
    match outcomes attempt with
    | .ok => .success (attempt + 1) sleeps
    | .perm e => rmtree_loop outcomes (attempt + 1) remaining (sleeps + 1) (some e)
    | .other e => .rethrow (attempt + 1) sleeps e

/-- Termination status of _rmtree_with_retries: normal return or a raised
error, identified by its id. -/
inductive RmOutcome where
  | ok
  | raised (errId : Nat)
deriving DecidableEq, Repr

/-- Observable result of _rmtree_with_retries. -/
structure RmResult where
  /-- rmtree calls made on the original path during the retry loop. -/
  attempts : Nat
  /-- time.sleep calls made (each passes delaySec seconds). -/
  sleeps : Nat
  /-- the delay passed to each sleep, in seconds. -/
  delaySec : ℚ
  /-- whether the rename fallback was reached. -/
  renameTried : Bool
  /-- path handed to the final rmtree call, when the fallback was reached. -/
  finalTarget : Option String
  /-- whether some rmtree call succeeded, i.e. the tree is gone afterwards. -/
  removed : Bool
  /-- normal return, or the error raised. -/
  outcome : RmOutcome
deriving DecidableEq, Repr

/-- Embedding of _rmtree_with_retries (src/bin/run_maya_tests.py lines
189-222).  `pathExists` is the os.path.exists oracle for `path`;
`outcomes` gives the result of the n-th rmtree call on the original path;
`renameOk` tells whether os.rename succeeds (an OSError from it is
swallowed and the original path is reused); `finalOutcome` is the result
of the final rmtree call of the fallback.  If that final call fails, the
last loop error is re-raised when one exists, otherwise the final error
itself. -/
def rmtree_with_retries (path : String) (pathExists : Bool) (tries : Nat) (delaySec : ℚ)
    (outcomes : Nat → RmAttempt) (renameOk : Bool) (finalOutcome : RmAttempt) : RmResult :=
  if path = "" ∨ pathExists = false then
    ⟨0, 0, delaySec, false, none, false, .ok⟩
  else
    match rmtree_loop outcomes 0 tries 0 none with
    | .success n s => ⟨n, s, delaySec, false, none, true, .ok⟩
    | .rethrow n s e => ⟨n, s, delaySec, false, none, false, .raised e⟩
    | .exhausted s lastErr =>
      let renamed :=
        if renameOk then joinPath (dirname path) (basename path ++ "_delete_later") else path
      match finalOutcome with
      | .ok => ⟨tries, s, delaySec, true, some renamed, true, .ok⟩
      | .perm e => ⟨tries, s, delaySec, true, some renamed, false,
          .raised (lastErr.getD e)⟩
      | .other e => ⟨tries, s, delaySec, true, some renamed, false,
          .raised (lastErr.getD e)⟩

/-- The call as made by the driver: the source defaults tries=12 and
delay_sec=0.25. -/
def rmtree_with_retries_default (path : String) (pathExists : Bool)
    (outcomes : Nat → RmAttempt) (renameOk : Bool) (finalOutcome : RmAttempt) : RmResult :=
  rmtree_with_retries path pathExists 12 (1 / 4 : ℚ) outcomes renameOk finalOutcome

/-- Embedding of get_clean_maya_app_dir (lines 175-186).  `pathExists` is
the os.path.exists oracle; `fresh` stands for the freshly created
uniquely-named temp directory path (tempfile.gettempdir joined with
"maya_app_dir_" and a uuid).  A truthy (non-empty) existing argument is
returned unchanged; otherwise the fresh directory is created and
returned. -/
def get_clean_maya_app_dir (appDir : Option String) (pathExists : String → Bool)
    (fresh : String) : String :=
  match appDir with
  | some d => if d ≠ "" ∧ pathExists d then d else fresh
  | none => fresh

/-- Helper: when every iteration of the retry loop hits a PermissionError,
the loop exhausts its budget, sleeping once per failed attempt and keeping
the last error. -/
theorem rmtree_loop_perm_exhaust (outcomes : Nat → RmAttempt) (errOf : Nat → Nat) :
    ∀ (remaining attempt sleeps : Nat) (lastErr : Option Nat),
      (∀ i, i < remaining → outcomes (attempt + i) = .perm (errOf (attempt + i))) →
      rmtree_loop outcomes attempt remaining sleeps lastErr =
        .exhausted (sleeps + remaining)
          (if remaining = 0 then lastErr else some (errOf (attempt + remaining - 1)))
  | 0, _, sleeps, lastErr, _ => by simp [rmtree_loop]
  | remaining + 1, attempt, sleeps, lastErr, h => by
    have h0 : outcomes attempt = .perm (errOf attempt) := by
      have := h 0 (Nat.succ_pos _)
      simpa using this
    have ih := rmtree_loop_perm_exhaust outcomes errOf remaining (attempt + 1) (sleeps + 1)
      (some (errOf attempt)) (fun i hi => by
        have := h (i + 1) (by omega)
        have e : attempt + (i + 1) = attempt + 1 + i := by omega
        rw [e] at this
        exact this)
    simp only [rmtree_loop, h0]
    rw [ih]
    by_cases hr : remaining = 0
    · subst hr
      simp
    · have e1 : sleeps + 1 + remaining = sleeps + (remaining + 1) := by omega
      have e2 : attempt + 1 + remaining - 1 = attempt + (remaining + 1) - 1 := by omega
      simp [hr, e1, e2]

/-- Helper: when the first k iterations hit PermissionErrors and the next
rmtree call succeeds (k within budget), the loop stops after k + 1 attempts
and k sleeps. -/
theorem rmtree_loop_perm_success (outcomes : Nat → RmAttempt) (errOf : Nat → Nat) :
    ∀ (k remaining attempt sleeps : Nat) (lastErr : Option Nat), k < remaining →
      (∀ i, i < k → outcomes (attempt + i) = .perm (errOf (attempt + i))) →
      outcomes (attempt + k) = .ok →
      rmtree_loop outcomes attempt remaining sleeps lastErr =
        .success (attempt + k + 1) (sleeps + k)
  | 0, remaining, attempt, sleeps, lastErr, hk, _, hok => by
    obtain ⟨r, rfl⟩ : ∃ r, remaining = r + 1 := ⟨remaining - 1, by omega⟩
    have h0 : outcomes attempt = .ok := by simpa using hok
    simp [rmtree_loop, h0]
  | k + 1, remaining, attempt, sleeps, lastErr, hk, hperm, hok => by
    obtain ⟨r, rfl⟩ : ∃ r, remaining = r + 1 := ⟨remaining - 1, by omega⟩
    have h0 : outcomes attempt = .perm (errOf attempt) := by
      have := hperm 0 (Nat.succ_pos _)
      simpa using this
    have ih := rmtree_loop_perm_success outcomes errOf k r (attempt + 1) (sleeps + 1)
      (some (errOf attempt)) (by omega) (fun i hi => by
        have := hperm (i + 1) (by omega)
        have e : attempt + (i + 1) = attempt + 1 + i := by omega
        rw [e] at this
        exact this) (by
        have e : attempt + (k + 1) = attempt + 1 + k := by omega
        rw [e] at hok
        exact hok)
    simp only [rmtree_loop, h0]
    rw [ih]
    have e1 : attempt + 1 + k + 1 = attempt + (k + 1) + 1 := by omega
    have e2 : sleeps + 1 + k = sleeps + (k + 1) := by omega
    rw [e1, e2]

/-- C5: release of an owned isolation directory is a no-op when the path is
absent or already gone; otherwise it retries whole-tree removal up to 12
attempts with a 250 ms (0.25 s) delay after each permission-denied failure;
if all attempts fail it renames the directory to a sibling delete-later
name, attempts one final removal of the renamed tree, and if that also
fails it raises the original pre-rename failure (the last loop error), not
the rename failure. -/
theorem C5_rmtree_with_retries_behavior (path : String) (pathExists : Bool)
    (outcomes : Nat → RmAttempt) (renameOk : Bool) (finalOutcome : RmAttempt)
    (errOf : Nat → Nat) :
    ((path = "" ∨ pathExists = false) →
      rmtree_with_retries_default path pathExists outcomes renameOk finalOutcome =
        ⟨0, 0, (1 / 4 : ℚ), false, none, false, .ok⟩) ∧
    (∀ k, path ≠ "" → pathExists = true → k < 12 →
      (∀ i, i < k → outcomes i = .perm (errOf i)) → outcomes k = .ok →
      rmtree_with_retries_default path pathExists outcomes renameOk finalOutcome =
        ⟨k + 1, k, (1 / 4 : ℚ), false, none, true, .ok⟩) ∧
    (path ≠ "" → pathExists = true →
      (∀ i, i < 12 → outcomes i = .perm (errOf i)) →
      (rmtree_with_retries_default path pathExists outcomes renameOk finalOutcome).attempts
          = 12 ∧
      (rmtree_with_retries_default path pathExists outcomes renameOk finalOutcome).sleeps
          = 12 ∧
      (rmtree_with_retries_default path pathExists outcomes renameOk finalOutcome).delaySec
          = (1 / 4 : ℚ) ∧
      (rmtree_with_retries_default path pathExists outcomes renameOk finalOutcome).renameTried
          = true ∧
      (renameOk = true →
        (rmtree_with_retries_default path pathExists outcomes renameOk finalOutcome).finalTarget
          = some (joinPath (dirname path) (basename path ++ "_delete_later"))) ∧
      (finalOutcome = .ok →
        (rmtree_with_retries_default path pathExists outcomes renameOk finalOutcome).outcome
            = .ok ∧
        (rmtree_with_retries_default path pathExists outcomes renameOk finalOutcome).removed
            = true) ∧
      (∀ e, finalOutcome = .perm e ∨ finalOutcome = .other e →
        (rmtree_with_retries_default path pathExists outcomes renameOk finalOutcome).outcome
          = .raised (errOf 11))) := by
  refine ⟨?_, ?_, ?_⟩
  · intro h
    rcases h with h | h <;>
      simp [rmtree_with_retries_default, rmtree_with_retries, h]
  · intro k hp hpe hk hperm hok
    have hloop := rmtree_loop_perm_success outcomes errOf k 12 0 0 none hk
      (fun i hi => by simpa using hperm i hi) (by simpa using hok)
    simp only [Nat.zero_add] at hloop
    simp [rmtree_with_retries_default, rmtree_with_retries, hp, hpe, hloop]
  · intro hp hpe hperm
    have hloop := rmtree_loop_perm_exhaust outcomes errOf 12 0 0 none
      (fun i hi => by simpa using hperm i hi)
    simp only [Nat.zero_add] at hloop
    norm_num at hloop
    cases finalOutcome <;>
      simp [rmtree_with_retries_default, rmtree_with_retries, hp, hpe, hloop] <;>
      intro h1 h2 <;> rw [h1] at h2 <;> simp at h2

/-- C5 witness: concrete evaluations of the three behaviors — a vanished
path is a no-op; three permission failures then success gives four
attempts; twelve permission failures lead to the rename fallback, and a
failing final removal raises the last loop error (id 11), not the final
error (id 99). -/
theorem C5_rmtree_with_retries_behavior_witness :
    rmtree_with_retries_default "/tmp/x" false (fun _ => .ok) true .ok =
      ⟨0, 0, (1 / 4 : ℚ), false, none, false, .ok⟩ ∧
    rmtree_with_retries_default "/tmp/x" true (fun i => if i < 3 then .perm i else .ok)
        true .ok = ⟨4, 3, (1 / 4 : ℚ), false, none, true, .ok⟩ ∧
    (rmtree_with_retries_default "/tmp/x" true (fun i => .perm i) true (.other 99)).outcome
        = .raised 11 ∧
    (rmtree_with_retries_default "/tmp/x" true (fun i => .perm i) true
        (.other 99)).finalTarget = some "/tmp/x_delete_later" := by
  have h1 := (C5_rmtree_with_retries_behavior "/tmp/x" false (fun _ => .ok) true .ok id).1
    (Or.inr rfl)
  have h2 := (C5_rmtree_with_retries_behavior "/tmp/x" true
      (fun i => if i < 3 then .perm i else .ok) true .ok id).2.1 3 (by decide) rfl
    (by decide) (fun i hi => by
      have : (i : Nat) < 3 := hi
      simp [this]) (by decide)
  have h3 := (C5_rmtree_with_retries_behavior "/tmp/x" true (fun i => .perm i) true
      (.other 99) id).2.2 (by decide) rfl (fun i _ => rfl)
  refine ⟨h1, h2, ?_, ?_⟩
  · exact h3.2.2.2.2.2.2 99 (Or.inr rfl)
  · have := h3.2.2.2.2.1 rfl
    rw [this]
    decide

/-- C6 counterexample: acquire on an existing caller-supplied directory
returns it unchanged, but release applied to that same still-existing
directory removes the tree (removed = true) rather than being a no-op. -/
theorem C6_counterexample :
    get_clean_maya_app_dir (some "/reused") (fun s => s == "/reused") "/tmp/fresh"
        = "/reused" ∧
    (rmtree_with_retries_default "/reused" true (fun _ => .ok) true .ok).removed = true ∧
    (rmtree_with_retries_default "/reused" true (fun _ => .ok) true .ok).outcome = .ok := by
  refine ⟨by decide, by decide, by decide⟩

/-- C6 (amended): acquire (get_clean_maya_app_dir) on an existing non-empty
caller-supplied directory returns exactly that path unchanged.  Release
(_rmtree_with_retries), however, carries no reuse guard: it is a no-op
only when the path is empty or no longer exists, and applied to the reused
directory while it still exists (with the removal succeeding) it removes
the tree. -/
theorem C6_acquire_reuse_release (d fresh : String) (pathExists : String → Bool)
    (outcomes : Nat → RmAttempt) (renameOk : Bool) (finalOutcome : RmAttempt) :
    (d ≠ "" → pathExists d = true →
      get_clean_maya_app_dir (some d) pathExists fresh = d) ∧
    (rmtree_with_retries_default d false outcomes renameOk finalOutcome =
      ⟨0, 0, (1 / 4 : ℚ), false, none, false, .ok⟩) ∧
    (d ≠ "" → outcomes 0 = .ok →
      (rmtree_with_retries_default d true outcomes renameOk finalOutcome).removed = true) := by
  refine ⟨?_, ?_, ?_⟩
  · intro h1 h2
    simp [get_clean_maya_app_dir, h1, h2]
  · simp [rmtree_with_retries_default, rmtree_with_retries]
  · intro h1 h2
    have hloop : rmtree_loop outcomes 0 12 0 none = .success 1 0 := by
      simp [rmtree_loop, h2]
    simp [rmtree_with_retries_default, rmtree_with_retries, h1, hloop]

/-- C6 witness: the amended statement evaluated at a concrete reused
directory. -/
theorem C6_acquire_reuse_release_witness :
    get_clean_maya_app_dir (some "/proj/prefs") (fun s => s == "/proj/prefs") "/tmp/fresh"
        = "/proj/prefs" ∧
    rmtree_with_retries_default "/proj/prefs" false (fun _ => .ok) true .ok =
      ⟨0, 0, (1 / 4 : ℚ), false, none, false, .ok⟩ ∧
    (rmtree_with_retries_default "/proj/prefs" true (fun _ => .ok) true .ok).removed
        = true := by
  have h := C6_acquire_reuse_release "/proj/prefs" "/tmp/fresh"
    (fun s => s == "/proj/prefs") (fun _ => .ok) true .ok
  exact ⟨h.1 (by decide) (by decide), h.2.1, h.2.2 (by decide) rfl⟩

/-! ## Environment Configurator (src/bin/run_maya_tests.py) -/

/-- Package descriptor built by package_from_root (lines 149-168): the root
path and the optional companion python sources directory (present only when
it exists on disk). -/
structure TestPackage where
  root : String
  pythonDir : Option String
deriving DecidableEq, Repr

/-- The environment variables touched by the driver. -/
structure RunEnv where
  mayaAppDir : Option String
  mayaScriptPath : Option String
  mayaModulePath : Option String
  pythonPath : Option String
deriving DecidableEq, Repr

/-- Embedding of _join_paths (lines 48-49): os.pathsep-joined paths; the
platform path separator is a parameter. -/
def join_paths (sep : String) (paths : List String) : String :=
  String.intercalate sep paths

/-- Embedding of configure_env_for_packages (lines 229-250): sets
MAYA_APP_DIR only when a directory was provided, always resets
MAYA_SCRIPT_PATH to the empty string, sets MAYA_MODULE_PATH to the joined
package roots in supplied order, and when at least one package has a
python sources directory, prepends the joined python directories to
PYTHONPATH, keeping a non-empty previous value after a separator. -/
def configure_env_for_packages (sep : String) (packages : List TestPackage)
    (mayaAppDir : Option String) (env : RunEnv) : RunEnv :=
  let env1 := match mayaAppDir with
    | some d => { env with mayaAppDir := some d }
    | none => env
  let env2 := { env1 with mayaScriptPath := some "" }
  let env3 := { env2 with
    mayaModulePath := some (join_paths sep (packages.map (fun p => p.root))) }
  let pythonDirs := packages.filterMap (fun p => p.pythonDir)
  if pythonDirs ≠ [] then
    let existing := env3.pythonPath.getD ""
    let pfx := join_paths sep pythonDirs
    { env3 with
      pythonPath := some (pfx ++ (if existing ≠ "" then sep ++ existing else "")) }
  else env3

/-- C7: configure_env_for_packages always resets the script-search-path
variable to the empty string, sets the module-discovery-path variable to
the separator-joined package roots in supplied order, and when at least
one package has a python sources directory sets the import-path variable
to those directories joined in package order, prepended before any
pre-existing import-path value (preserved as suffix). -/
theorem C7_configure_env (sep : String) (packages : List TestPackage)
    (mayaAppDir : Option String) (env : RunEnv) :
    (configure_env_for_packages sep packages mayaAppDir env).mayaScriptPath = some "" ∧
    (configure_env_for_packages sep packages mayaAppDir env).mayaModulePath =
      some (join_paths sep (packages.map (fun p => p.root))) ∧
    (packages.filterMap (fun p => p.pythonDir) ≠ [] →
      (configure_env_for_packages sep packages mayaAppDir env).pythonPath =
        some (join_paths sep (packages.filterMap (fun p => p.pythonDir)) ++
          (if env.pythonPath.getD "" ≠ "" then sep ++ env.pythonPath.getD "" else ""))) ∧
    (packages.filterMap (fun p => p.pythonDir) = [] →
      (configure_env_for_packages sep packages mayaAppDir env).pythonPath =
        env.pythonPath) := by
  by_cases h : packages.filterMap (fun p => p.pythonDir) = [] <;>
    cases mayaAppDir <;>
      simp [configure_env_for_packages, h]

/-- C7 witness: the spec's example — package A with sources A/python and
package B without — gives module path A:B and import path A/python
prepended before the pre-existing value. -/
theorem C7_configure_env_witness :
    (configure_env_for_packages ":" [⟨"A", some "A/python"⟩, ⟨"B", none⟩] none
        ⟨none, none, none, some "/pre"⟩).mayaScriptPath = some "" ∧
    (configure_env_for_packages ":" [⟨"A", some "A/python"⟩, ⟨"B", none⟩] none
        ⟨none, none, none, some "/pre"⟩).mayaModulePath = some "A:B" ∧
    (configure_env_for_packages ":" [⟨"A", some "A/python"⟩, ⟨"B", none⟩] none
        ⟨none, none, none, some "/pre"⟩).pythonPath = some "A/python:/pre" := by
  have h := C7_configure_env ":" [⟨"A", some "A/python"⟩, ⟨"B", none⟩] none
    ⟨none, none, none, some "/pre"⟩
  refine ⟨h.1, ?_, ?_⟩
  · rw [h.2.1]
    decide
  · rw [h.2.2.1 (by decide)]
    decide

/-! ## get_tests import-path discipline (src/python/mayaunittest.py) -/

/-- Embedding of add_to_path (src/python/mayaunittest.py lines 228-237):
inserts the path at the front of sys.path only when it exists on disk and
is not already present; returns whether it was added, together with the
updated sys.path.  `fs` models the set of existing directories. -/
def add_to_path (fs : List String) (path : String) (sysPath : List String) :
    Bool × List String :=
  if path ∈ fs ∧ path ∉ sysPath then (true, path :: sysPath) else (false, sysPath)

/-- One step of the list comprehension in get_tests (line 117): the
accumulator holds (directories_added_to_path, sys.path). -/
def get_tests_add_step (fs : List String) (acc : List String × List String) (p : String) :
    List String × List String :=
  let r := add_to_path fs p acc.2
  (if r.1 then acc.1 ++ [p] else acc.1, r.2)

/-- Path effect of the single-test branch of get_tests (lines 115-131):
add each candidate via add_to_path, then remove the added paths with
sys.path.remove (first occurrence).  Resolving the named test itself is
modelled as not touching sys.path.  Returns
(directories_added_to_path, sys.path after the removals). -/
def get_tests_single (fs : List String) (dirs : List String) (sysPath : List String) :
    List String × List String :=
  let res := dirs.foldl (get_tests_add_step fs) ([], sysPath)
  (res.1, res.1.foldl (fun sp path => sp.erase path) res.2)

/-- Helper: invariant of the add phase — the added list stays duplicate
free, each added entry exists and was not in the original sys.path, and
sys.path is exactly the added entries (reversed) in front of the original
value. -/
theorem get_tests_fold_invariant (fs : List String) :
    ∀ (dirs added0 sysPath : List String), added0.Nodup →
      (∀ a ∈ added0, a ∈ fs ∧ a ∉ sysPath) →
      (dirs.foldl (get_tests_add_step fs) (added0, added0.reverse ++ sysPath)).1.Nodup ∧
      (∀ a ∈ (dirs.foldl (get_tests_add_step fs) (added0, added0.reverse ++ sysPath)).1,
        a ∈ fs ∧ a ∉ sysPath) ∧
      (dirs.foldl (get_tests_add_step fs) (added0, added0.reverse ++ sysPath)).2 =
        (dirs.foldl (get_tests_add_step fs) (added0, added0.reverse ++ sysPath)).1.reverse
          ++ sysPath
  | [], added0, sysPath, hnd, hmem => by
    exact ⟨hnd, hmem, rfl⟩
  | p :: dirs, added0, sysPath, hnd, hmem => by
    by_cases hc : p ∈ fs ∧ p ∉ added0.reverse ++ sysPath
    · have hstep : get_tests_add_step fs (added0, added0.reverse ++ sysPath) p =
          (added0 ++ [p], (added0 ++ [p]).reverse ++ sysPath) := by
        simp [get_tests_add_step, add_to_path, hc]
      have hpa : p ∉ added0 := fun hpin =>
        hc.2 (List.mem_append.mpr (Or.inl (List.mem_reverse.mpr hpin)))
      have hps : p ∉ sysPath := fun hpin => hc.2 (List.mem_append.mpr (Or.inr hpin))
      have hnd2 : (added0 ++ [p]).Nodup := by
        simp [List.nodup_append, hnd, hpa]
      have hmem2 : ∀ a ∈ added0 ++ [p], a ∈ fs ∧ a ∉ sysPath := by
        intro a ha
        rcases List.mem_append.mp ha with h | h
        · exact hmem a h
        · have : a = p := by simpa using h
          subst this
          exact ⟨hc.1, hps⟩
      have ih := get_tests_fold_invariant fs dirs (added0 ++ [p]) sysPath hnd2 hmem2
      simpa [List.foldl_cons, hstep] using ih
    · have hstep : get_tests_add_step fs (added0, added0.reverse ++ sysPath) p =
          (added0, added0.reverse ++ sysPath) := by
        simp only [get_tests_add_step, add_to_path]
        rw [if_neg hc]
        simp
      have ih := get_tests_fold_invariant fs dirs added0 sysPath hnd hmem
      simpa [List.foldl_cons, hstep] using ih

/-- Helper: removing, in order, each element of a duplicate-free list that
was prepended (reversed) in front of an original list — where none of the
removed elements occurs in the original — restores the original exactly. -/
theorem foldl_erase_reverse (orig : List String) :
    ∀ added : List String, added.Nodup → (∀ a ∈ added, a ∉ orig) →
      added.foldl (fun sp p => sp.erase p) (added.reverse ++ orig) = orig
  | [], _, _ => by simp
  | a :: rest, hnd, hdisj => by
    have ha : a ∉ rest := (List.nodup_cons.mp hnd).1
    have step : (rest.reverse ++ a :: orig).erase a = rest.reverse ++ orig := by
      rw [List.erase_append_right _ (by simpa using ha)]
      simp
    have ih := foldl_erase_reverse orig rest (List.nodup_cons.mp hnd).2
      (fun b hb => hdisj b (List.mem_cons.mpr (Or.inr hb)))
    simpa [List.foldl_cons, step] using ih

/-- C9: with a single named test, get_tests adds to the import path only
candidate directories that exist and were not already present, and after
resolving it removes exactly the entries it added: the resulting sys.path
equals the original one, so every pre-existing entry is still present and
no temporarily added entry remains. -/
theorem C9_get_tests_path_restoration (fs dirs sysPath : List String) :
    (get_tests_single fs dirs sysPath).2 = sysPath ∧
    (∀ a ∈ (get_tests_single fs dirs sysPath).1, a ∈ fs ∧ a ∉ sysPath) := by
  have hinv := get_tests_fold_invariant fs dirs [] sysPath (by simp) (by simp)
  obtain ⟨hnd, hmem, heq⟩ := hinv
  constructor
  · show (dirs.foldl (get_tests_add_step fs) ([], sysPath)).1.foldl
        (fun sp path => sp.erase path)
        (dirs.foldl (get_tests_add_step fs) ([], sysPath)).2 = sysPath
    rw [show (([], sysPath) : List String × List String) =
        (([] : List String), ([] : List String).reverse ++ sysPath) from by simp] at *
    rw [heq]
    exact foldl_erase_reverse sysPath _ hnd (fun a ha => (hmem a ha).2)
  · intro a ha
    exact hmem a (by simpa [get_tests_single] using ha)

/-- C9 witness: with one existing candidate, one missing candidate and one
already-present candidate, sys.path is restored exactly and the added
directory existed and was new. -/
theorem C9_get_tests_path_restoration_witness :
    (get_tests_single ["d1", "s"] ["d1", "d2", "s"] ["s"]).2 = ["s"] ∧
    ("d1" ∈ ["d1", "s"] ∧ "d1" ∉ ["s"]) := by
  refine ⟨(C9_get_tests_path_restoration ["d1", "s"] ["d1", "d2", "s"] ["s"]).1, ?_⟩
  exact (C9_get_tests_path_restoration ["d1", "s"] ["d1", "d2", "s"] ["s"]).2 "d1"
    (by decide)

/-! ## get_temp_filename (src/python/mayaunittest.py) -/

/-- Model of os.path.splitext: split at the rightmost dot after the
rightmost separator, provided a non-dot character stands between them (so
dotfiles carry no extension). -/
def splitext (p : String) : String × String :=
  let l := p.toList
  let sepIdx : Int := match lastIndexOf l '/' with
    | some i => (i : Int)
    | none => -1
  let dotIdx : Int := match lastIndexOf l '.' with
    | some i => (i : Int)
    | none => -1
  if dotIdx > sepIdx ∧
      (List.range l.length).any (fun i =>
        decide (sepIdx < (i : Int)) && decide ((i : Int) < dotIdx) &&
          (l.get? i != some '.')) = true then
    (String.mk (l.take dotIdx.toNat), String.mk (l.drop dotIdx.toNat))
  else (p, "")

example : splitext "/tmp/t/a.txt" = ("/tmp/t/a", ".txt") := by decide
example : splitext "/tmp/t/noext" = ("/tmp/t/noext", "") := by decide
example : splitext "/tmp/t/.hidden" = ("/tmp/t/.hidden", "") := by decide

/-- Collision loop of get_temp_filename (lines 330-335): while the current
path exists, bump the numeric counter inserted before the extension.  `fs`
models the set of existing paths; the fuel bounds the search and the
caller passes one more than the number of existing paths, enough for the
loop to stop on the modelled filesystem. -/
def next_free_path (fs : List String) (base ext : String) :
    String → Nat → Nat → String
  | path, _, 0 => path
  | path, count, fuel + 1 =>
    if path ∈ fs then
      next_free_path fs base ext (base ++ toString (count + 1) ++ ext) (count + 1) fuel
    else path

/-- Embedding of get_temp_filename (src/python/mayaunittest.py lines
317-338): build the candidate path under the configured temp directory,
walk the numeric suffixes until a path not existing on disk is found,
append the final path to the class-level files_created list, and return
it.  Note the collision test is os.path.exists, not the registration
list. -/
def get_temp_filename (fs : List String) (tempDir fileName : String)
    (filesCreated : List String) : String × List String :=
  let candidate := joinPath tempDir fileName
  let be := splitext candidate
  let path := next_free_path fs be.1 be.2 candidate 0 (fs.length + 1)
  (path, filesCreated ++ [path])

/-- C8 counterexample: requesting the same relative name twice while the
first returned path was never created on disk returns the SAME path both
times (and registers it twice) — the claimed distinctness fails because
the collision check consults the filesystem, not the registration list. -/
theorem C8_counterexample :
    (get_temp_filename [] "/tmp/t" "a.txt" []).1 = "/tmp/t/a.txt" ∧
    (get_temp_filename [] "/tmp/t" "a.txt"
        (get_temp_filename [] "/tmp/t" "a.txt" []).2).1 = "/tmp/t/a.txt" ∧
    (get_temp_filename [] "/tmp/t" "a.txt"
        (get_temp_filename [] "/tmp/t" "a.txt" []).2).2 =
      ["/tmp/t/a.txt", "/tmp/t/a.txt"] := by
  refine ⟨by decide, by decide, by decide⟩

/-- C8 (amended): requesting the same relative file name twice yields two
distinct paths when the first returned path exists on disk at the time of
the second request: the second then carries the numeric suffix 1 inserted
before the extension; and each call registers its returned path in the
class-level cleanup list. -/
theorem C8_get_temp_filename_collision (fs0 fs1 : List String)
    (tempDir fileName : String) (files0 files1 : List String)
    (h1 : joinPath tempDir fileName ∉ fs0)
    (h2 : joinPath tempDir fileName ∈ fs1)
    (h3 : (splitext (joinPath tempDir fileName)).1 ++ "1" ++
        (splitext (joinPath tempDir fileName)).2 ∉ fs1) :
    (get_temp_filename fs0 tempDir fileName files0).1 = joinPath tempDir fileName ∧
    (get_temp_filename fs1 tempDir fileName files1).1 =
      (splitext (joinPath tempDir fileName)).1 ++ "1" ++
        (splitext (joinPath tempDir fileName)).2 ∧
    (get_temp_filename fs1 tempDir fileName files1).1 ≠
      (get_temp_filename fs0 tempDir fileName files0).1 ∧
    (get_temp_filename fs0 tempDir fileName files0).2 =
      files0 ++ [(get_temp_filename fs0 tempDir fileName files0).1] ∧
    (get_temp_filename fs1 tempDir fileName files1).2 =
      files1 ++ [(get_temp_filename fs1 tempDir fileName files1).1] := by
  have hone : toString (0 + 1 : Nat) = "1" := by decide
  have e1 : (get_temp_filename fs0 tempDir fileName files0).1 =
      joinPath tempDir fileName := by
    simp [get_temp_filename, next_free_path, h1]
  have e2 : (get_temp_filename fs1 tempDir fileName files1).1 =
      (splitext (joinPath tempDir fileName)).1 ++ "1" ++
        (splitext (joinPath tempDir fileName)).2 := by
    obtain ⟨m, hm⟩ : ∃ m, fs1.length = m + 1 :=
      ⟨fs1.length - 1, by
        have : fs1 ≠ [] := fun h => by simp [h] at h2
        have : 0 < fs1.length := List.length_pos.mpr this
        omega⟩
    simp [get_temp_filename, hm, next_free_path, h2, hone, h3]
  refine ⟨e1, e2, ?_, rfl, rfl⟩
  rw [e1, e2]
  intro heq
  apply h3
  rw [heq]
  exact h2

/-- C8 witness: the amended collision behavior at concrete inputs — the
first request (empty filesystem) returns /tmp/t/a.txt; once that file
exists, the second request returns the distinct /tmp/t/a1.txt, and both
are registered. -/
theorem C8_get_temp_filename_collision_witness :
    (get_temp_filename [] "/tmp/t" "a.txt" []).1 = "/tmp/t/a.txt" ∧
    (get_temp_filename ["/tmp/t/a.txt"] "/tmp/t" "a.txt" ["/tmp/t/a.txt"]).1 =
      "/tmp/t/a1.txt" ∧
    (get_temp_filename ["/tmp/t/a.txt"] "/tmp/t" "a.txt" ["/tmp/t/a.txt"]).1 ≠
      (get_temp_filename [] "/tmp/t" "a.txt" []).1 ∧
    (get_temp_filename ["/tmp/t/a.txt"] "/tmp/t" "a.txt" ["/tmp/t/a.txt"]).2 =
      ["/tmp/t/a.txt", "/tmp/t/a1.txt"] := by
  have h := C8_get_temp_filename_collision [] ["/tmp/t/a.txt"] "/tmp/t" "a.txt" []
    ["/tmp/t/a.txt"] (by decide) (by decide) (by decide)
  refine ⟨h.1, ?_, h.2.2.1, ?_⟩
  · rw [h.2.1]
    decide
  · rw [h.2.2.2.2, h.2.1]
    decide

/-! ## Import-time execution of mayaunittest.py -/

/-- Public attribute names of the Python standard library unittest module
(the test framework this repository extends; modelled from the standard
library it imports).  No attribute is named MayaTestCase. -/
def unittest_public_names : List String :=
  ["TestCase", "IsolatedAsyncioTestCase", "FunctionTestCase", "TestSuite",
   "TestLoader", "TestResult", "TextTestResult", "TextTestRunner", "TestProgram",
   "main", "defaultTestLoader", "SkipTest", "skip", "skipIf", "skipUnless",
   "expectedFailure", "installHandler", "registerResult", "removeResult",
   "removeHandler", "addModuleCleanup", "doModuleCleanups", "getTestCaseNames",
   "makeSuite", "findTestCases"]

/-- Attribute lookup on the unittest module; none models AttributeError. -/
def unittest_getattr (name : String) : Option String :=
  if unittest_public_names.contains name then some name else none

/-- One top-level statement of mayaunittest.py, as far as import-time
execution is concerned: a plain name binding, or a class statement whose
base is an attribute of the unittest module (none for any other base). -/
inductive TopStmt where
  | defName (name : String)
  | classDef (name : String) (unittestBase : Option String)
deriving DecidableEq, Repr

/-- The top-level statements of src/python/mayaunittest.py in source order
(lines 53-437).  The class statement at line 240 names
unittest.MayaTestCase as its base class. -/
def mayaunittest_body : List TopStmt :=
  [.defName "mayapython", .defName "filter_sys_path", .defName "CUSTOM_RUNNER",
   .defName "run_tests", .defName "get_tests", .defName "maya_module_tests",
   .defName "run_tests_from_commandline", .classDef "Settings" none,
   .defName "set_temp_dir", .defName "set_delete_files", .defName "set_buffer_output",
   .defName "set_file_new", .defName "add_to_path",
   .classDef "MayaTestCase" (some "MayaTestCase"),
   .classDef "TestResult" (some "TextTestResult"),
   .classDef "ScriptEditorState" none]

/-- Import-time execution of a module body: statements run in order; a
class statement whose unittest base attribute does not resolve raises
AttributeError and aborts the import. -/
def exec_module : List TopStmt → List String → Except String (List String)
  | [], defined => .ok defined
  | .defName n :: rest, defined => exec_module rest (defined ++ [n])
  | .classDef n base :: rest, defined =>
    match base with
    | none => exec_module rest (defined ++ [n])
    | some attr =>
      match unittest_getattr attr with
      | some _ => exec_module rest (defined ++ [n])
      | none => .error ("AttributeError: module unittest has no attribute " ++ attr)

/-- Importing mayaunittest: execute its top-level statements. -/
def import_mayaunittest : Except String (List String) :=
  exec_module mayaunittest_body []

/-- Attribute reachable on the imported mayaunittest module: a module
whose import failed exposes no names at all. -/
def mayaunittest_attr (name : String) : Option String :=
  match import_mayaunittest with
  | .error _ => none
  | .ok names => if names.contains name then some name else none

/-- C1: evaluating the class statement MayaTestCase(unittest.MayaTestCase)
requires the attribute unittest.MayaTestCase, which the standard unittest
module does not have, so importing mayaunittest raises AttributeError at
that statement (the later TextTestResult base would have resolved), and
none of run_tests, get_tests, MayaTestCase or TestResult is reachable. -/
theorem C1_import_raises_attribute_error :
    unittest_getattr "MayaTestCase" = none ∧
    unittest_getattr "TextTestResult" = some "TextTestResult" ∧
    import_mayaunittest =
      .error "AttributeError: module unittest has no attribute MayaTestCase" ∧
    mayaunittest_attr "run_tests" = none ∧
    mayaunittest_attr "get_tests" = none ∧
    mayaunittest_attr "MayaTestCase" = none ∧
    mayaunittest_attr "TestResult" = none := by
  refine ⟨by decide, by decide, rfl, by decide, by decide, by decide, by decide⟩

/-! ## Plugin unloading (src/python/mayaunittest.py) -/

/-- Iterate cmds.unloadPlugin over the recorded plugins with no handler in
the loop body: the first raised exception (some message) propagates.
models the loop of the second unload_plugins definition, lines 288-290. -/
def unload_all (unload : String → Option String) : List String → Option String
  | [] => none
  | p :: rest =>
    match unload p with
    | none => unload_all unload rest
    | some e => some e

/-- Embedding of the SECOND unload_plugins definition (lines 282-291) —
the one Python binds, since it appears later in the class body: unload
each plugin without exception handling, then clear the recorded
collection.  Returns (raised exception if any, final plugins_loaded); on
a raised error the collection keeps its old value because the clearing
assignment is never reached. -/
def unload_plugins_effective (unload : String → Option String)
    (plugins : List String) : Option String × List String :=
  match unload_all unload plugins with
  | none => (none, [])
  | some e => (some e, plugins)

/-- Embedding of the FIRST unload_plugins definition (lines 253-265),
shadowed by the later one: a failing unload only logs a warning (collected
here) and the loop continues; the set is always cleared. Returns
(warnings logged, final plugins_loaded); it never raises. -/
def unload_plugins_shadowed (unload : String → Option String)
    (plugins : List String) : List String × List String :=
  if plugins.isEmpty then ([], [])
  else
    (plugins.foldl (fun ws p =>
      match unload p with
      | none => ws
      | some e => ws ++ ["Failed to unload plugin " ++ p ++ ": " ++ e]) [], [])

/-- C2: at the failing input — plugins_loaded containing badPlugin whose
unload raises — the effective (later-bound) unload_plugins propagates the
exception out of class teardown and leaves the recorded collection
uncleared, while the shadowed earlier definition exhibits exactly the
claimed log-and-continue-and-clear behavior. -/
theorem C2_unload_plugins_raises :
    unload_plugins_effective
        (fun p => if p == "badPlugin" then some "RuntimeError" else none)
        ["goodPlugin", "badPlugin"] =
      (some "RuntimeError", ["goodPlugin", "badPlugin"]) ∧
    unload_plugins_shadowed
        (fun p => if p == "badPlugin" then some "RuntimeError" else none)
        ["goodPlugin", "badPlugin"] =
      (["Failed to unload plugin badPlugin: RuntimeError"], []) := by
  refine ⟨by decide, by decide⟩

/-! ## Test execution driver and standalone shutdown -/

/-- Outcome of one individual test. -/
inductive TestOutcome where
  | success
  | failure
  | error
deriving DecidableEq, Repr

/-- The counts reported by the result collector. -/
structure ResultCounts where
  successes : Nat
  failures : Nat
  errors : Nat
deriving DecidableEq, Repr

/-- Modelled from the standard test framework semantics (an external
collaborator of this repository): the runner's run method executes every
test of the suite and records each individual failure or error in the
result object instead of raising; run_tests (mayaunittest.py lines 82-95)
invokes it and returns normally. -/
def runner_run : List TestOutcome → ResultCounts
  | [] => ⟨0, 0, 0⟩
  | t :: rest =>
    let r := runner_run rest
    match t with
    | .success => ⟨r.successes + 1, r.failures, r.errors⟩
    | .failure => ⟨r.successes, r.failures + 1, r.errors⟩
    | .error => ⟨r.successes, r.failures, r.errors + 1⟩

/-- Observable behavior of run_tests_from_commandline after the runtime
is initialized. -/
structure CmdlineRun where
  counts : ResultCounts
  uninitCalled : Bool
  raised : Option String
deriving DecidableEq, Repr

/-- Embedding of run_tests_from_commandline (src/python/mayaunittest.py
lines 145-170): run the tests, then evaluate the version probe
float(cmds.about(v=True)) — an oracle that may raise — and perform the
standalone shutdown call only when the probe succeeds with a value of at
least 2016.0; a probe exception propagates, with no shutdown attempted,
because line 169 sits in no try block. -/
def run_tests_from_commandline (tests : List TestOutcome)
    (versionProbe : Except String ℚ) : CmdlineRun :=
  let counts := runner_run tests
  match versionProbe with
  | .error e => ⟨counts, false, some e⟩
  | .ok v => ⟨counts, decide ((2016 : ℚ) ≤ v), none⟩

/-- C3 counterexample: when the version probe itself raises, the shutdown
call is NOT attempted — the exception propagates instead — contradicting
the claim that it is still attempted when determining the version fails. -/
theorem C3_counterexample :
    (run_tests_from_commandline [] (.error "about failed")).uninitCalled = false ∧
    (run_tests_from_commandline [] (.error "about failed")).raised =
      some "about failed" := by
  refine ⟨by decide, by decide⟩

/-- C3 (amended): after the tests have run, the standalone shutdown call
is performed exactly when the version probe succeeds with a value at or
above 2016, skipped below that threshold, and skipped — with the probe's
exception propagating — when the probe fails. -/
theorem C3_uninitialize_gate (tests : List TestOutcome)
    (versionProbe : Except String ℚ) :
    (∀ v, versionProbe = .ok v → (2016 : ℚ) ≤ v →
      (run_tests_from_commandline tests versionProbe).uninitCalled = true ∧
      (run_tests_from_commandline tests versionProbe).raised = none) ∧
    (∀ v, versionProbe = .ok v → v < (2016 : ℚ) →
      (run_tests_from_commandline tests versionProbe).uninitCalled = false ∧
      (run_tests_from_commandline tests versionProbe).raised = none) ∧
    (∀ e, versionProbe = .error e →
      (run_tests_from_commandline tests versionProbe).uninitCalled = false ∧
      (run_tests_from_commandline tests versionProbe).raised = some e) := by
  refine ⟨?_, ?_, ?_⟩
  · intro v hv hge
    subst hv
    simp [run_tests_from_commandline, hge]
  · intro v hv hlt
    subst hv
    simp [run_tests_from_commandline, not_le.mpr hlt]
  · intro e he
    subst he
    simp [run_tests_from_commandline]

/-- C3 witness: the gate at host versions 2024 (shutdown called), 2015
(skipped) and a failing probe (skipped, exception propagated). -/
theorem C3_uninitialize_gate_witness :
    (run_tests_from_commandline [] (.ok 2024)).uninitCalled = true ∧
    (run_tests_from_commandline [] (.ok 2015)).uninitCalled = false ∧
    (run_tests_from_commandline [] (.error "boom")).uninitCalled = false := by
  refine ⟨?_, ?_, ?_⟩
  · exact ((C3_uninitialize_gate [] (.ok 2024)).1 2024 rfl (by norm_num)).1
  · exact ((C3_uninitialize_gate [] (.ok 2015)).2.1 2015 rfl (by norm_num)).1
  · exact ((C3_uninitialize_gate [] (.error "boom")).2.2 "boom" rfl).1

/-- Inside-mayapy path of main (src/bin/run_maya_tests.py lines 338-367):
after configuration, run_tests_from_commandline is invoked and main
returns 0; only a raised exception (here: the version probe) escapes
instead.  Individual test failures and errors were already absorbed into
the result counts by the runner. -/
def main_in_mayapy (tests : List TestOutcome) (versionProbe : Except String ℚ) :
    Except String (Int × ResultCounts) :=
  let r := run_tests_from_commandline tests versionProbe
  match r.raised with
  | some e => .error e
  | none => .ok (0, r.counts)

/-- C10: for every multiset of individual test outcomes, a run that
executes inside the host interpreter returns exit code 0 from main no
matter how many tests failed or errored; the failures and errors are
reflected only in the result collector's counts. -/
theorem C10_exit_code_zero (tests : List TestOutcome) (v : ℚ) :
    main_in_mayapy tests (.ok v) =
      .ok (0, ⟨tests.count .success, tests.count .failure, tests.count .error⟩) := by
  have hcounts : runner_run tests =
      ⟨tests.count .success, tests.count .failure, tests.count .error⟩ := by
    induction tests with
    | nil => rfl
    | cons t rest ih => cases t <;> simp [runner_run, ih, List.count_cons]
  simp [main_in_mayapy, run_tests_from_commandline, hcounts]
